import Mathlib

/-!
Verification of the n01d-forge burn/erase/verify pipeline.

This file gives a shallow embedding of the core of the repository
(src/src-tauri/src/main.rs, secure_erase.rs, encryption.rs).  External
effects — the filesystem, block devices, spawned processes, the system
RNG and clock, and the cryptographic primitives supplied by third-party
crates (sha2, md5, aes-gcm, argon2) — are modelled as explicit
environment records and function parameters; everything the repository
itself computes is translated directly from the source.

Machine integers are modelled as Nat, with wrapping made explicit where
it matters (the u64 subtraction in VeraCryptHeader::new).

Time: the cancellation flag can be set asynchronously by cancel_burn.
We model this with a logical clock: each external action of a run
(the erase call, every iteration of the write loop, each explicit
cancel-flag check, the encryption, bootloader and verify calls)
advances the clock by one tick, and the environment prescribes the
tick at which an external cancel request lands (cancelAt).  A load of
the cancellation flag at tick t reads true iff cancelAt ≤ t.
-/

-- ==========================================================================
-- Shared application state (main.rs, struct AppState, lines 41-59)
-- The current_operation mutex string is modelled as a history of stores,
-- most recent first, each tagged with the tick at which it was stored;
-- the current label is the head.
-- ==========================================================================

deriving instance DecidableEq for Except

structure AppState where
  is_burning : Bool
  progress : Nat
  total_bytes : Nat
  ops : List (String × Nat)
  cancel_flag : Bool
deriving DecidableEq

def AppState.init : AppState := ⟨false, 0, 0, [], false⟩

def label (s : String) (t : Nat) (st : AppState) : AppState :=
  { st with ops := (s, t) :: st.ops }

/-- Value read from the cancellation flag at tick t, given the tick at
which an external cancel request lands (none = no cancel ever). -/
def cancelSet (cancelAt : Option Nat) (t : Nat) : Bool :=
  match cancelAt with
  | none => false
  | some c => decide (c ≤ t)

-- ==========================================================================
-- secure_erase.rs
-- ==========================================================================

inductive SecureEraseMethod where
  | Zeros
  | Random
  | DoD
  | Gutmann
  | CustomRandom (n : Nat)
deriving DecidableEq

def SecureEraseMethod.passes : SecureEraseMethod → Nat
  | .Zeros => 1
  | .Random => 1
  | .DoD => 3
  | .Gutmann => 35
  | .CustomRandom n => n

/-- PatternType (secure_erase.rs lines 101-107); Fixed carries the 3-byte
motif of the Rust [u8; 3]. -/
inductive PatternType where
  | Zeros
  | Ones
  | Random
  | Fixed (p : Nat × Nat × Nat)
deriving DecidableEq

def PatternType.isFixed : PatternType → Bool
  | .Fixed _ => true
  | _ => false

/-- get_gutmann_pattern (secure_erase.rs lines 153-187).  The source takes
a u8 pass index; the wildcard arm (35..=255) returns Random, which the
final Nat wildcard reflects. -/
def get_gutmann_pattern (pass : Nat) : PatternType :=
  match pass with
  | 0 | 1 | 2 | 3 => .Random
  | 4 => .Fixed (0x55, 0x55, 0x55)
  | 5 => .Fixed (0xAA, 0xAA, 0xAA)
  | 6 => .Fixed (0x92, 0x49, 0x24)
  | 7 => .Fixed (0x49, 0x24, 0x92)
  | 8 => .Fixed (0x24, 0x92, 0x49)
  | 9 => .Fixed (0x00, 0x00, 0x00)
  | 10 => .Fixed (0x11, 0x11, 0x11)
  | 11 => .Fixed (0x22, 0x22, 0x22)
  | 12 => .Fixed (0x33, 0x33, 0x33)
  | 13 => .Fixed (0x44, 0x44, 0x44)
  | 14 => .Fixed (0x55, 0x55, 0x55)
  | 15 => .Fixed (0x66, 0x66, 0x66)
  | 16 => .Fixed (0x77, 0x77, 0x77)
  | 17 => .Fixed (0x88, 0x88, 0x88)
  | 18 => .Fixed (0x99, 0x99, 0x99)
  | 19 => .Fixed (0xAA, 0xAA, 0xAA)
  | 20 => .Fixed (0xBB, 0xBB, 0xBB)
  | 21 => .Fixed (0xCC, 0xCC, 0xCC)
  | 22 => .Fixed (0xDD, 0xDD, 0xDD)
  | 23 => .Fixed (0xEE, 0xEE, 0xEE)
  | 24 => .Fixed (0xFF, 0xFF, 0xFF)
  | 25 => .Fixed (0x92, 0x49, 0x24)
  | 26 => .Fixed (0x49, 0x24, 0x92)
  | 27 => .Fixed (0x24, 0x92, 0x49)
  | 28 => .Fixed (0x6D, 0xB6, 0xDB)
  | 29 => .Fixed (0xB6, 0xDB, 0x6D)
  | 30 => .Fixed (0xDB, 0x6D, 0xB6)
  | 31 | 32 | 33 | 34 => .Random
  | _ => .Random

/-- Environment of one secure_erase_drive call: the outcome of
get_device_size (an external blockdev/diskutil/powershell invocation,
already formatted as its error string on failure), of opening the
device, of the per-pass pattern writes for the chosen method, and of
the final sync_all. -/
structure EraseEnv where
  sizeResult : Except String Nat
  openErr : Option String
  writeResult : Except String Unit
  syncErr : Option String
deriving DecidableEq

/-- secure_erase_drive (secure_erase.rs lines 51-99): size lookup, open,
the per-method pattern writes, then sync_all.  Each failure aborts with
the formatted message of the source. -/
def secure_erase_drive (_method : SecureEraseMethod) (env : EraseEnv) :
    Except String Unit :=
  match env.sizeResult with
  | .error e => .error e
  | .ok _ =>
    match env.openErr with
    | some e => .error (("Failed to open device: ") ++ e)
    | none =>
      match env.writeResult with
      | .error e => .error e
      | .ok _ =>
        match env.syncErr with
        | some e => .error (("Sync failed: ") ++ e)
        | none => .ok ()

/-- Erase-method string parsing shared by burn_image (main.rs lines
340-346) and the secure_erase command (main.rs lines 685-691); unknown
strings default to Zeros. -/
def parseEraseMethod (s : String) : SecureEraseMethod :=
  if s = ("zeros") then .Zeros
  else if s = ("random") then .Random
  else if s = ("dod") then .DoD
  else if s = ("gutmann") then .Gutmann
  else .Zeros

-- ==========================================================================
-- encryption.rs
-- ==========================================================================

/-- derive_key (encryption.rs lines 47-56).  The Argon2id primitive of the
argon2 crate is an external, RNG-free function of (password, salt); it is
passed in as a parameter.  On failure the source prepends a fixed prefix
to the crate's error. -/
def derive_key (argon2 : String → List Nat → Except String (List Nat))
    (password : String) (salt : List Nat) : Except String (List Nat) :=
  match argon2 password salt with
  | .ok key => .ok key
  | .error e => .error (("Key derivation failed: ") ++ e)

/-- encrypt_aes256gcm (encryption.rs lines 73-90).  The AES-256-GCM
primitive of the aes-gcm crate is a parameter (key, nonce, plaintext →
ciphertext-with-tag).  The source draws a fresh 12-byte nonce from the
thread RNG; the environment supplies it as a Fin 12 → Nat.  The
new_from_slice key-length check is the only failure of cipher
construction. -/
def encrypt_aes256gcm
    (aeadEnc : List Nat → List Nat → List Nat → Except String (List Nat))
    (data : List Nat) (key : List Nat) (nonce : Fin 12 → Nat) :
    Except String (List Nat) :=
  if key.length = 32 then
    match aeadEnc key (List.ofFn nonce) data with
    | .ok ct => .ok ((List.ofFn nonce) ++ ct)
    | .error e => .error (("Encryption failed: ") ++ e)
  else .error ("Cipher init failed: Invalid Length")

/-- decrypt_aes256gcm (encryption.rs lines 93-107): inputs shorter than
the 12-byte nonce are rejected first, then the nonce is split off and
the aes-gcm decrypt primitive (a parameter) is applied. -/
def decrypt_aes256gcm
    (aeadDec : List Nat → List Nat → List Nat → Except String (List Nat))
    (encrypted : List Nat) (key : List Nat) : Except String (List Nat) :=
  if encrypted.length < 12 then .error ("Invalid encrypted data")
  else if key.length = 32 then
    match aeadDec key (encrypted.take 12) (encrypted.drop 12) with
    | .ok pt => .ok pt
    | .error e => .error (("Decryption failed: ") ++ e)
  else .error ("Cipher init failed: Invalid Length")

def TWO64 : Nat := 18446744073709551616

/-- VeraCryptHeader (encryption.rs lines 144-162). -/
structure VeraCryptHeader where
  version : Nat
  required_program_version : Nat
  crc32 : Nat
  volume_creation_time : Nat
  header_creation_time : Nat
  hidden_volume_size : Nat
  volume_size : Nat
  encrypted_area_start : Nat
  encrypted_area_length : Nat
  flags : Nat
  sector_size : Nat
  encryption_algorithm : Nat
  hash_algorithm : Nat
  master_key : List Nat
  secondary_key : List Nat
  salt : List Nat
deriving DecidableEq

/-- VeraCryptHeader::new (encryption.rs lines 164-198).  The clock value
and the three random key/salt buffers come from the environment.  The
u64 subtraction volume_size - 131072 is unguarded in the source; its
release-build wrapping semantics is made explicit modulo 2^64 (a debug
build would panic on underflow instead). -/
def VeraCryptHeader.new (volume_size : Nat)
    (encryption_algo : Nat) (hash_algo : Nat) (now : Nat)
    (master_key secondary_key salt : List Nat) : VeraCryptHeader :=
  { version := 5
    required_program_version := 0x10b
    crc32 := 0
    volume_creation_time := now
    header_creation_time := now
    hidden_volume_size := 0
    volume_size := volume_size
    encrypted_area_start := 131072
    encrypted_area_length := (volume_size + (TWO64 - 131072)) % TWO64
    flags := 0
    sector_size := 512
    encryption_algorithm := encryption_algo
    hash_algorithm := hash_algo
    master_key := master_key
    secondary_key := secondary_key
    salt := salt }

-- ==========================================================================
-- Claim theorems: C6, C7
-- ==========================================================================

/-- C6: the AEAD round trip.  Encryption prepends the fresh 12-byte nonce
to the ciphertext and decryption splits it off again, so whenever the
underlying aes-gcm primitive succeeds on a 32-byte key and satisfies its
round-trip contract at this (key, nonce, plaintext), the composition
recovers the original plaintext. -/
theorem c6_aead_round_trip
    (aeadEnc aeadDec : List Nat → List Nat → List Nat → Except String (List Nat))
    (P K ct : List Nat) (nonce : Fin 12 → Nat)
    (hkey : K.length = 32)
    (hEnc : aeadEnc K (List.ofFn nonce) P = Except.ok ct)
    (hDec : aeadDec K (List.ofFn nonce) ct = Except.ok P) :
    encrypt_aes256gcm aeadEnc P K nonce = Except.ok ((List.ofFn nonce) ++ ct) ∧
    decrypt_aes256gcm aeadDec ((List.ofFn nonce) ++ ct) K = Except.ok P := by
  have hlen : (List.ofFn nonce).length = 12 := by simp
  constructor
  · simp only [encrypt_aes256gcm, hkey, if_true, hEnc]
  · have hge : ¬ ((List.ofFn nonce) ++ ct).length < 12 := by
      simp [List.length_append, hlen]
    have htake : ((List.ofFn nonce) ++ ct).take 12 = List.ofFn nonce := by
      rw [List.take_append_of_le_length (by simp [hlen])]
      simp [hlen]
    have hdrop : ((List.ofFn nonce) ++ ct).drop 12 = ct := by
      rw [List.drop_append_of_le_length (by simp [hlen])]
      simp [hlen]
    simp only [decrypt_aes256gcm, hge, if_false, hkey, if_true, htake, hdrop,
      hDec]

theorem c6_aead_round_trip_witness :
    (List.replicate 32 0).length = 32 ∧
      (fun (_k _n d : List Nat) => (Except.ok d : Except String (List Nat)))
        (List.replicate 32 0) (List.ofFn (fun _ : Fin 12 => 7)) [1, 2, 3] =
        Except.ok [1, 2, 3] ∧
      encrypt_aes256gcm (fun _k _n d => Except.ok d) [1, 2, 3]
        (List.replicate 32 0) (fun _ => 7) =
        Except.ok ((List.ofFn (fun _ : Fin 12 => 7)) ++ [1, 2, 3]) ∧
      decrypt_aes256gcm (fun _k _n c => Except.ok c)
        ((List.ofFn (fun _ : Fin 12 => 7)) ++ [1, 2, 3])
        (List.replicate 32 0) = Except.ok [1, 2, 3] := by
  have h := c6_aead_round_trip (fun _k _n d => Except.ok d)
    (fun _k _n c => Except.ok c) [1, 2, 3] (List.replicate 32 0) [1, 2, 3]
    (fun _ => 7) (by decide) rfl rfl
  exact ⟨by decide, rfl, h.1, h.2⟩

/-- C7: derive_key is deterministic.  The Argon2id primitive consumes no
randomness and no state, so in the embedding it is a pure function of
(password, salt): equal inputs give equal derive_key results, and under
the crate's contract that the primitive fills exactly the 32-byte output
buffer, every successful result is a 32-byte key. -/
theorem c7_derive_key_deterministic
    (argon2 : String → List Nat → Except String (List Nat))
    (p1 p2 : String) (s1 s2 : List Nat)
    (hp : p1 = p2) (hs : s1 = s2)
    (h32 : ∀ p s k, argon2 p s = Except.ok k → k.length = 32) :
    derive_key argon2 p1 s1 = derive_key argon2 p2 s2 ∧
    (∀ k, derive_key argon2 p1 s1 = Except.ok k → k.length = 32) := by
  subst hp; subst hs
  refine ⟨rfl, ?_⟩
  intro k hk
  unfold derive_key at hk
  cases h : argon2 p1 s1 with
  | ok key =>
    rw [h] at hk
    cases hk
    exact h32 p1 s1 k h
  | error e =>
    rw [h] at hk
    cases hk

theorem c7_derive_key_deterministic_witness :
    ("pw" : String) = ("pw" : String) ∧ ([1, 2] : List Nat) = [1, 2] ∧
      derive_key (fun _ _ => Except.ok (List.replicate 32 0)) ("pw") [1, 2] =
        derive_key (fun _ _ => Except.ok (List.replicate 32 0)) ("pw") [1, 2] ∧
      (∀ k, derive_key (fun _ _ => Except.ok (List.replicate 32 0)) ("pw")
          [1, 2] = Except.ok k → k.length = 32) := by
  have h := c7_derive_key_deterministic
    (fun _ _ => Except.ok (List.replicate 32 0)) ("pw") ("pw") [1, 2] [1, 2]
    rfl rfl (by intro p s k hk; cases hk; decide)
  exact ⟨rfl, rfl, h.1, h.2⟩

-- ==========================================================================
-- Claim theorems: C8, C9, C10
-- ==========================================================================

/-- C8: get_gutmann_pattern is total on pass indices 0 through 34; indices
0-3 and 31-34 return the Random pattern, and indices 4-30 each return a
fixed 3-byte motif. -/
theorem c8_gutmann_pattern_table :
    ∀ pass : Nat, pass < 35 →
      ((pass ≤ 3 → get_gutmann_pattern pass = PatternType.Random) ∧
       (31 ≤ pass → get_gutmann_pattern pass = PatternType.Random) ∧
       (4 ≤ pass → pass ≤ 30 → (get_gutmann_pattern pass).isFixed = true)) := by
  decide

theorem c8_gutmann_pattern_table_witness :
    2 < 35 ∧ 17 < 35 ∧
      get_gutmann_pattern 2 = PatternType.Random ∧
      (get_gutmann_pattern 17).isFixed = true := by
  refine ⟨by decide, by decide, ?_, ?_⟩
  · exact (c8_gutmann_pattern_table 2 (by decide)).1 (by decide)
  · exact (c8_gutmann_pattern_table 17 (by decide)).2.2 (by decide) (by decide)

/-- C9: VeraCryptHeader::new sets encrypted_area_start to exactly 131072
and encrypted_area_length to exactly volume_size - 131072, for every
in-range u64 volume_size of at least 131072. -/
theorem c9_veracrypt_header_geometry
    (volume_size encryption_algo hash_algo now : Nat)
    (master_key secondary_key salt : List Nat)
    (hge : 131072 ≤ volume_size) (hlt : volume_size < TWO64) :
    (VeraCryptHeader.new volume_size encryption_algo hash_algo now
        master_key secondary_key salt).encrypted_area_start = 131072 ∧
    (VeraCryptHeader.new volume_size encryption_algo hash_algo now
        master_key secondary_key salt).encrypted_area_length =
      volume_size - 131072 := by
  refine ⟨rfl, ?_⟩
  simp only [VeraCryptHeader.new, TWO64] at *
  omega

theorem c9_veracrypt_header_geometry_witness :
    131072 ≤ 10000000 ∧ 10000000 < TWO64 ∧
      (VeraCryptHeader.new 10000000 1 1 0 [] [] []).encrypted_area_start =
        131072 ∧
      (VeraCryptHeader.new 10000000 1 1 0 [] [] []).encrypted_area_length =
        9868928 := by
  have h := c9_veracrypt_header_geometry 10000000 1 1 0 [] [] []
    (by decide) (by decide)
  exact ⟨by decide, by decide, h.1, h.2⟩

/-- C10: VeraCryptHeader::new has the unstated precondition
volume_size ≥ 131072: for every smaller volume_size the unguarded u64
subtraction wraps modulo 2^64 (release semantics; a debug build panics),
producing an encrypted_area_length that strictly exceeds the volume
itself, and the constructor performs no check or error return — it is
total on all inputs. -/
theorem c10_veracrypt_header_underflow
    (volume_size encryption_algo hash_algo now : Nat)
    (master_key secondary_key salt : List Nat)
    (hlt : volume_size < 131072) :
    (VeraCryptHeader.new volume_size encryption_algo hash_algo now
        master_key secondary_key salt).encrypted_area_length =
      volume_size + (TWO64 - 131072) ∧
    (VeraCryptHeader.new volume_size encryption_algo hash_algo now
        master_key secondary_key salt).volume_size <
      (VeraCryptHeader.new volume_size encryption_algo hash_algo now
        master_key secondary_key salt).encrypted_area_length := by
  simp only [VeraCryptHeader.new, TWO64] at *
  omega

theorem c10_veracrypt_header_underflow_witness :
    0 < 131072 ∧
      (VeraCryptHeader.new 0 1 1 0 [] [] []).encrypted_area_length =
        0 + (TWO64 - 131072) ∧
      (VeraCryptHeader.new 0 1 1 0 [] [] []).volume_size <
        (VeraCryptHeader.new 0 1 1 0 [] [] []).encrypted_area_length := by
  have h := c10_veracrypt_header_underflow 0 1 1 0 [] [] [] (by decide)
  exact ⟨by decide, h.1, h.2⟩

-- ==========================================================================
-- Digest engine (main.rs): streaming reads and hex digests
-- ==========================================================================

/-- Case folding used by algorithm.to_lowercase() (main.rs line 224).
String.toLower itself is opaque to the kernel, so the same per-character
lowering is applied over the character list; the algorithm names at
issue are ASCII. -/
def stringToLower (s : String) : String := String.mk (s.data.map Char.toLower)

/-- Outcome of one reader.read call, prescribed by the file/device
environment: a chunk of bytes (empty = end of file) or an I/O error. -/
inductive ReadEvent where
  | chunk (data : List Nat)
  | err (msg : String)
deriving DecidableEq

def hexDigit (n : Nat) : Char :=
  if n < 10 then Char.ofNat (48 + n) else Char.ofNat (87 + n)

/-- Lowercase hex encoding of a byte string (the hex crate's encode). -/
def hexEncode (bytes : List Nat) : String :=
  String.mk (bytes.foldr
    (fun b acc => hexDigit (b / 16 % 16) :: hexDigit (b % 16) :: acc) [])

/-- Streaming read loop of calculate_hash (main.rs lines 227-234 and the
two identical copies for sha512/md5): returns the bytes fed to the
hasher (or the first read error) together with the final bytes_read
counter, which is also the last value stored into the shared progress
counter. -/
def hashLoopAcc : List ReadEvent → Nat → (Except String (List Nat)) × Nat
  | [], br => (.ok [], br)
  | .err m :: _, br => (.error (("Read error: ") ++ m), br)
  | .chunk d :: rest, br =>
    if d.length = 0 then (.ok [], br)
    else
      match hashLoopAcc rest (br + d.length) with
      | (.ok tail, br2) => (.ok (d ++ tail), br2)
      | r => r

/-- HashResult (main.rs lines 96-102). -/
structure HashResult where
  algorithm : String
  hash : String
  verified : Bool
  expected : Option String
deriving DecidableEq

/-- The three digest primitives of the sha2/md5 crates, passed in as
pure functions from input bytes to digest bytes. -/
structure HashFns where
  sha256 : List Nat → List Nat
  sha512 : List Nat → List Nat
  md5 : List Nat → List Nat

/-- Environment of one calculate_hash call: existence of the path, the
outcome of File::open and of file.metadata(), the metadata length, and
the outcomes of the successive reads. -/
structure HashEnv where
  fileExists : Bool
  openErr : Option String
  metaErr : Option String
  size : Nat
  reads : List ReadEvent
deriving DecidableEq

/-- Observable I/O footprint of a calculate_hash call: whether File::open
succeeded (the file was opened) and how many bytes were read from it. -/
structure HashTrace where
  opened : Bool
  bytesRead : Nat
deriving DecidableEq

def runHashAlg (hashfn : List Nat → List Nat) (alg : String) (env : HashEnv)
    (st : AppState) : (Except String HashResult) × AppState × HashTrace :=
  match hashLoopAcc env.reads 0 with
  | (.error e, br) => (.error e, { st with progress := br }, ⟨true, br⟩)
  | (.ok data, br) =>
    (.ok { algorithm := alg, hash := hexEncode (hashfn data),
           verified := true, expected := none },
     { st with progress := br }, ⟨true, br⟩)

/-- calculate_hash (main.rs lines 198-270): existence check, File::open,
metadata, then the stores into total_bytes and progress, and only then
the case-insensitive dispatch on the algorithm name; unknown names are
rejected at that point.  The result's algorithm field is the caller's
string verbatim. -/
def calculate_hash (algorithm : String) (env : HashEnv) (fns : HashFns)
    (st : AppState) : (Except String HashResult) × AppState × HashTrace :=
  if env.fileExists = false then (.error ("File not found"), st, ⟨false, 0⟩)
  else
    match env.openErr with
    | some e => (.error (("Failed to open file: ") ++ e), st, ⟨false, 0⟩)
    | none =>
      match env.metaErr with
      | some e => (.error (("Failed to get file size: ") ++ e), st, ⟨true, 0⟩)
      | none =>
        let st := { st with total_bytes := env.size, progress := 0 }
        if stringToLower algorithm = ("sha256") then runHashAlg fns.sha256 algorithm env st
        else if stringToLower algorithm = ("sha512") then runHashAlg fns.sha512 algorithm env st
        else if stringToLower algorithm = ("md5") then runHashAlg fns.md5 algorithm env st
        else (.error (("Unsupported algorithm: ") ++ algorithm), st, ⟨true, 0⟩)

-- ==========================================================================
-- Claim theorems: C4
-- ==========================================================================

/-- C4 counterexample: calculate_hash with the unsupported algorithm
"sha1" on an existing, readable file does return the unsupported-algorithm
error, but only after the file has been opened (trace.opened = true), its
metadata read, and the shared total_bytes/progress counters overwritten —
refuting the claim that the rejection happens before any I/O begins and
before the file is opened. -/
theorem c4_counterexample_rejection_after_open :
    calculate_hash ("sha1")
        ⟨true, none, none, 7, [ReadEvent.chunk [1, 2, 3]]⟩
        ⟨fun l => l, fun l => l, fun l => l⟩
        { AppState.init with total_bytes := 42 } =
      (Except.error ("Unsupported algorithm: sha1"),
       { AppState.init with total_bytes := 7, progress := 0 },
       ⟨true, 0⟩) := by
  decide

/-- C4 amended: for every algorithm string that is not sha256, sha512 or
md5 (compared case-insensitively), calculate_hash on an existing file
whose open and metadata calls succeed returns the unsupported-algorithm
error; the rejection happens after the existence check, the File::open,
the metadata read and the resetting of the shared counters, but before
any bytes of the file are read (bytesRead = 0). -/
theorem c4_amended_unsupported_algorithm
    (algorithm : String) (env : HashEnv) (fns : HashFns) (st : AppState)
    (h256 : ¬ stringToLower algorithm = ("sha256"))
    (h512 : ¬ stringToLower algorithm = ("sha512"))
    (hmd5 : ¬ stringToLower algorithm = ("md5"))
    (hex : env.fileExists = true)
    (hop : env.openErr = none)
    (hme : env.metaErr = none) :
    calculate_hash algorithm env fns st =
      (Except.error (("Unsupported algorithm: ") ++ algorithm),
       { st with total_bytes := env.size, progress := 0 },
       ⟨true, 0⟩) := by
  simp only [calculate_hash, hex, hop, hme, h256, h512, hmd5, if_false,
    Bool.true_eq_false, reduceIte]

theorem c4_amended_unsupported_algorithm_witness :
    ¬ stringToLower ("Sha3") = ("sha256") ∧
      ¬ stringToLower ("Sha3") = ("sha512") ∧
      ¬ stringToLower ("Sha3") = ("md5") ∧
      calculate_hash ("Sha3") ⟨true, none, none, 9, []⟩
          ⟨fun l => l, fun l => l, fun l => l⟩ AppState.init =
        (Except.error ("Unsupported algorithm: Sha3"),
         { AppState.init with total_bytes := 9, progress := 0 },
         ⟨true, 0⟩) := by
  have h := c4_amended_unsupported_algorithm ("Sha3") ⟨true, none, none, 9, []⟩
    ⟨fun l => l, fun l => l, fun l => l⟩ AppState.init
    (by decide) (by decide) (by decide) rfl rfl rfl
  exact ⟨by decide, by decide, by decide, h⟩

-- ==========================================================================
-- write_image_to_drive (main.rs lines 441-482)
-- ==========================================================================

/-- Outcome of one iteration of the copy loop, prescribed by the
image/device environment: a successful read of a chunk followed by a
successful write (empty chunk = end of file), a read error, or a read
whose subsequent write_all fails. -/
inductive WriteEvent where
  | chunk (data : List Nat)
  | readErr (msg : String)
  | writeErr (msg : String)
deriving DecidableEq

structure WriteEnv where
  openImageErr : Option String
  openTargetErr : Option String
  events : List WriteEvent
  flushErr : Option String
deriving DecidableEq

/-- Copy loop of write_image_to_drive (main.rs lines 460-476).  Each
iteration first loads the cancellation flag (one clock tick per
iteration), then performs the read/write prescribed by the environment.
Returns the result (bytes written, or the propagated error), the last
value stored into the shared progress counter, and the clock after the
loop. -/
def writeLoop (cancelAt : Option Nat) (events : List WriteEvent)
    (t bw : Nat) : (Except String Nat) × Nat × Nat :=
  if cancelSet cancelAt t then (.error ("Operation cancelled"), bw, t + 1)
  else
    match events with
    | [] => (.ok bw, bw, t + 1)
    | .readErr m :: _ => (.error (("Read error: ") ++ m), bw, t + 1)
    | .writeErr m :: _ => (.error (("Write error: ") ++ m), bw, t + 1)
    | .chunk d :: rest =>
      if d.length = 0 then (.ok bw, bw, t + 1)
      else writeLoop cancelAt rest (t + 1) (bw + d.length)

/-- write_image_to_drive (main.rs lines 441-482): open the image and the
target, run the copy loop, then flush.  The progress component is the
last value stored into the shared counter (the counter holds 0 when the
loop never stored). -/
def write_image_to_drive (wenv : WriteEnv) (cancelAt : Option Nat)
    (t : Nat) : (Except String Nat) × Nat × Nat :=
  match wenv.openImageErr with
  | some e => (.error (("Failed to open image: ") ++ e), 0, t)
  | none =>
    match wenv.openTargetErr with
    | some e => (.error (("Failed to open target drive: ") ++ e), 0, t)
    | none =>
      match writeLoop cancelAt wenv.events t 0 with
      | (.ok bw, p, t2) =>
        match wenv.flushErr with
        | some e => (.error (("Flush error: ") ++ e), p, t2)
        | none => (.ok bw, p, t2)
      | r => r

-- ==========================================================================
-- verify_written_image (main.rs lines 587-638)
-- ==========================================================================

structure VerifyEnv where
  openImageErr : Option String
  openTargetErr : Option String
  imageReads : List ReadEvent
  targetReads : List ReadEvent
deriving DecidableEq

/-- First loop of verify_written_image (main.rs lines 601-606): read the
whole source image for hashing; no progress stores. -/
def hashReads : List ReadEvent → Except String (List Nat)
  | [] => .ok []
  | .err m :: _ => .error (("Read error: ") ++ m)
  | .chunk d :: rest =>
    if d.length = 0 then .ok []
    else
      match hashReads rest with
      | .ok tail => .ok (d ++ tail)
      | .error e => .error e

/-- Second loop of verify_written_image (main.rs lines 620-628): read the
target device capped to image_size bytes in total; each read requests at
most min(4 MiB, cap - bytes_read) bytes, and bytes_read is stored into
the shared progress counter after each chunk.  Returns the hashed bytes
(or the first read error) and the final bytes_read. -/
def hashCappedLoop (reads : List ReadEvent) (cap bytes_read : Nat) :
    (Except String (List Nat)) × Nat :=
  if cap ≤ bytes_read then (.ok [], bytes_read)
  else
    match reads with
    | [] => (.ok [], bytes_read)
    | .err m :: _ => (.error (("Read error: ") ++ m), bytes_read)
    | .chunk d :: rest =>
      let taken := d.take (min (4 * 1024 * 1024) (cap - bytes_read))
      if taken.length = 0 then (.ok [], bytes_read)
      else
        match hashCappedLoop rest cap (bytes_read + taken.length) with
        | (.ok tail, br) => (.ok (taken ++ tail), br)
        | r => r

/-- verify_written_image (main.rs lines 587-638): sha256 of the source
image, then sha256 of the target capped to image_size, compared to fill
the verified field; a digest mismatch is not an error.  The second
component is the final value of the shared progress counter when the
function touched it (it stores 0 after opening the target), none when
it failed before that point. -/
def verify_written_image (venv : VerifyEnv) (sha256 : List Nat → List Nat)
    (image_size : Nat) : (Except String HashResult) × Option Nat :=
  match venv.openImageErr with
  | some e => (.error (("Failed to open image: ") ++ e), none)
  | none =>
    match hashReads venv.imageReads with
    | .error e => (.error e, none)
    | .ok imageBytes =>
      let original_hash := hexEncode (sha256 imageBytes)
      match venv.openTargetErr with
      | some e => (.error (("Failed to open target: ") ++ e), none)
      | none =>
        match hashCappedLoop venv.targetReads image_size 0 with
        | (.error e, br) => (.error e, some br)
        | (.ok targetBytes, br) =>
          let written_hash := hexEncode (sha256 targetBytes)
          (.ok { algorithm := ("sha256"), hash := written_hash,
                 verified := original_hash == written_hash,
                 expected := some original_hash }, some br)

-- ==========================================================================
-- Encryption setup and bootloader configuration (main.rs lines 484-585)
-- ==========================================================================

structure EncryptionSettings where
  enabled : Bool
  encryption_type : String
  password : String
  cipher : String
  key_size : Nat
  hash_algo : String
  iterations : Nat
  wipe_header_on_error : Bool
deriving DecidableEq

structure CmdOutput where
  success : Bool
  stderr : String
deriving DecidableEq

/-- Environment of one setup_luks_encryption call: the outcome of the
cryptsetup luksFormat invocation, of spawning luksAddKey, and of
waiting on it. -/
structure EncEnv where
  formatSpawn : Except String CmdOutput
  addKeySpawn : Except String Unit
  waitErr : Option String
deriving DecidableEq

/-- setup_luks_encryption (main.rs lines 499-553): normalizes the cipher
name, derives the iter-time argument, then runs cryptsetup luksFormat
and luksAddKey through the environment; the luksAddKey child's exit
status is not inspected beyond the wait error. -/
def setup_luks_encryption (settings : EncryptionSettings) (env : EncEnv) :
    Except String Unit :=
  let _cipher :=
    if settings.cipher = ("aes-xts-plain64") then ("aes-xts-plain64")
    else if settings.cipher = ("serpent-xts-plain64") then ("serpent-xts-plain64")
    else if settings.cipher = ("twofish-xts-plain64") then ("twofish-xts-plain64")
    else ("aes-xts-plain64")
  let _iter_time := max (settings.iterations / 1000) 1
  match env.formatSpawn with
  | .error e => .error (("Failed to run cryptsetup: ") ++ e)
  | .ok out =>
    if out.success = false then .error (("LUKS format failed: ") ++ out.stderr)
    else
      match env.addKeySpawn with
      | .error e => .error (("Failed to add key: ") ++ e)
      | .ok _ =>
        match env.waitErr with
        | some e => .error (("Key add failed: ") ++ e)
        | none => .ok ()

/-- setup_encryption (main.rs lines 484-497): dispatch on the
encryption_type string; veracrypt is unimplemented and unknown types
are rejected. -/
def setup_encryption (settings : EncryptionSettings) (env : EncEnv) :
    Except String Unit :=
  if settings.encryption_type = ("luks") ∨ settings.encryption_type = ("luks2") then
    setup_luks_encryption settings env
  else if settings.encryption_type = ("veracrypt") then
    .error ("VeraCrypt encryption requires veracrypt CLI. Please install veracrypt first.")
  else .error (("Unsupported encryption type: ") ++ settings.encryption_type)

structure BootloaderConfig where
  mode : String
  secure_boot : Bool
  persistent_storage : Bool
  persistent_size_mb : Nat
deriving DecidableEq

/-- configure_bootloader (main.rs lines 564-585): every arm of the match
on the mode, including the wildcard, returns Ok(()). -/
def configure_bootloader (config : BootloaderConfig) : Except String Unit :=
  if config.mode = ("uefi") then .ok ()
  else if config.mode = ("legacy") then .ok ()
  else if config.mode = ("hybrid") then .ok ()
  else .ok ()

-- ==========================================================================
-- burn_image (main.rs lines 295-439) and secure_erase (lines 673-698)
-- ==========================================================================

structure BurnConfig where
  image_path : String
  target_drive : String
  verify_after_write : Bool
  secure_erase_before : Bool
  erase_method : String
  encryption : Option EncryptionSettings
  bootloader : BootloaderConfig
deriving DecidableEq

structure BurnResult where
  success : Bool
  message : String
  hash_verification : Option HashResult
  duration_seconds : Nat
  bytes_written : Nat
deriving DecidableEq

/-- Environment of one burn_image run: image existence, the outcome of
fs::metadata (the image length), the tick at which an external cancel
request lands, the environments of the erase, write, encryption and
verify stages, and the measured wall-clock duration. -/
structure BurnEnv where
  image_exists : Bool
  metadata : Except String Nat
  cancelAt : Option Nat
  erase : EraseEnv
  write : WriteEnv
  enc : EncEnv
  verify : VerifyEnv
  duration : Nat
deriving DecidableEq

def applyProgress : Option Nat → AppState → AppState
  | none, st => st
  | some p, st => { st with progress := p }

/-- Final steps of burn_image (main.rs lines 412-438): the Syncing label,
the external sync call, clearing the in-progress flag, the Complete
label, and the successful BurnResult. -/
def burnFinish (env : BurnEnv) (t bw : Nat) (hv : Option HashResult)
    (st : AppState) : (Except String BurnResult) × AppState :=
  let st := label ("Syncing...") t st
  let st := { st with is_burning := false }
  let st := label ("Complete") t st
  (.ok { success := true, message := ("Image burned successfully"),
         hash_verification := hv, duration_seconds := env.duration,
         bytes_written := bw }, st)

/-- Step 5 of burn_image (main.rs lines 395-410): verification only if
requested; its error propagates without the in-progress flag being
cleared. -/
def burnVerifyStage (cfg : BurnConfig) (env : BurnEnv)
    (f : List Nat → List Nat) (sz t bw : Nat) (st : AppState) :
    (Except String BurnResult) × AppState :=
  if cfg.verify_after_write then
    let st := label ("Verifying write...") t st
    match verify_written_image env.verify f sz with
    | (.error e, p) => (.error e, applyProgress p st)
    | (.ok hr, p) => burnFinish env (t + 1) bw (some hr) (applyProgress p st)
  else burnFinish env t bw none st

/-- Step 4 of burn_image (main.rs lines 387-393). -/
def burnBootStage (cfg : BurnConfig) (env : BurnEnv)
    (f : List Nat → List Nat) (sz t bw : Nat) (st : AppState) :
    (Except String BurnResult) × AppState :=
  let st := label ("Configuring bootloader...") t st
  match configure_bootloader cfg.bootloader with
  | .error e => (.error e, st)
  | .ok _ => burnVerifyStage cfg env f sz (t + 1) bw st

/-- Step 3 of burn_image (main.rs lines 375-385): encryption setup only
if present and enabled; its error propagates without the in-progress
flag being cleared. -/
def burnEncStage (cfg : BurnConfig) (env : BurnEnv)
    (f : List Nat → List Nat) (sz t bw : Nat) (st : AppState) :
    (Except String BurnResult) × AppState :=
  match cfg.encryption with
  | none => burnBootStage cfg env f sz t bw st
  | some es =>
    if es.enabled then
      let st := label ("Setting up encryption...") t st
      match setup_encryption es env.enc with
      | .error e => (.error e, st)
      | .ok _ => burnBootStage cfg env f sz (t + 1) bw st
    else burnBootStage cfg env f sz t bw st

/-- Cancellation check after the write stage (main.rs lines 369-373): on
a set flag it clears the in-progress flag and returns the cancellation
error. -/
def burnCheckpoint2 (cfg : BurnConfig) (env : BurnEnv)
    (f : List Nat → List Nat) (sz t bw : Nat) (st : AppState) :
    (Except String BurnResult) × AppState :=
  if cancelSet env.cancelAt t then
    (.error ("Operation cancelled"), { st with is_burning := false })
  else burnEncStage cfg env f sz (t + 1) bw st

/-- Step 2 of burn_image (main.rs lines 357-367): the copy loop; a
propagated error (including a cancellation detected inside
write_image_to_drive) leaves the in-progress flag set. -/
def burnWriteStage (cfg : BurnConfig) (env : BurnEnv)
    (f : List Nat → List Nat) (sz t : Nat) (st : AppState) :
    (Except String BurnResult) × AppState :=
  let st := label ("Writing image to drive...") t st
  match write_image_to_drive env.write env.cancelAt t with
  | (.error e, p, _) => (.error e, { st with progress := p })
  | (.ok bw, p, t2) =>
    burnCheckpoint2 cfg env f sz t2 bw { st with progress := p }

/-- Cancellation check after the erase stage (main.rs lines 351-355). -/
def burnCheckpoint1 (cfg : BurnConfig) (env : BurnEnv)
    (f : List Nat → List Nat) (sz t : Nat) (st : AppState) :
    (Except String BurnResult) × AppState :=
  if cancelSet env.cancelAt t then
    (.error ("Operation cancelled"), { st with is_burning := false })
  else burnWriteStage cfg env f sz (t + 1) st

/-- Step 1 of burn_image (main.rs lines 333-349): the optional secure
erase; its error propagates without the in-progress flag being
cleared. -/
def burnEraseStage (cfg : BurnConfig) (env : BurnEnv)
    (f : List Nat → List Nat) (sz : Nat) (st : AppState) :
    (Except String BurnResult) × AppState :=
  if cfg.secure_erase_before then
    let st := label ("Secure erasing drive...") 0 st
    match secure_erase_drive (parseEraseMethod cfg.erase_method) env.erase with
    | .error e => (.error e, st)
    | .ok _ => burnCheckpoint1 cfg env f sz 1 st
  else burnCheckpoint1 cfg env f sz 0 st

/-- burn_image (main.rs lines 295-439), with f the sha256 primitive used
during verification.  Returns the command's result together with the
final shared state.  The mutual-exclusion check, the stores into the
in-progress/cancel/progress fields, the Preparing label and the source
validation precede the staged pipeline, exactly as in the source. -/
def burn_image (cfg : BurnConfig) (st : AppState) (env : BurnEnv)
    (f : List Nat → List Nat) : (Except String BurnResult) × AppState :=
  if st.is_burning then
    (.error ("A burn operation is already in progress"), st)
  else
    let st := { st with is_burning := true, cancel_flag := false, progress := 0 }
    let st := label ("Preparing...") 0 st
    if env.image_exists = false then
      (.error ("Image file not found"), { st with is_burning := false })
    else
      match env.metadata with
      | .error e =>
        (.error (("Failed to read image: ") ++ e), { st with is_burning := false })
      | .ok sz => burnEraseStage cfg env f sz { st with total_bytes := sz }

/-- secure_erase command (main.rs lines 673-698): rejected while another
operation is in progress; otherwise it sets the in-progress flag, runs
the erase, and always clears the flag before returning the erase's
result. -/
def secure_erase (method : String) (st : AppState) (env : EraseEnv) :
    (Except String Unit) × AppState :=
  if st.is_burning then (.error ("Another operation is in progress"), st)
  else
    let st := { st with is_burning := true }
    (secure_erase_drive (parseEraseMethod method) env,
     { st with is_burning := false })

-- ==========================================================================
-- Pipeline reduction lemmas
-- ==========================================================================

/-- A run outcome whose error left the process stuck: the error is
returned, the in-progress flag is still set, and every subsequent
burn_image or secure_erase call on the resulting state is rejected with
the already-in-progress error. -/
def StuckBusy (r : (Except String BurnResult) × AppState) (e : String) : Prop :=
  r.1 = Except.error e ∧ r.2.is_burning = true ∧
  (∀ cfg2 env2 f2, (burn_image cfg2 r.2 env2 f2).1 =
      Except.error ("A burn operation is already in progress")) ∧
  (∀ m2 eenv2, (secure_erase m2 r.2 eenv2).1 =
      Except.error ("Another operation is in progress"))

theorem stuckBusy_of (r : (Except String BurnResult) × AppState) (e : String)
    (h1 : r.1 = Except.error e) (h2 : r.2.is_burning = true) :
    StuckBusy r e := by
  refine ⟨h1, h2, ?_, ?_⟩
  · intro cfg2 env2 f2
    simp [burn_image, h2]
  · intro m2 eenv2
    simp [secure_erase, h2]

theorem burn_image_run (cfg : BurnConfig) (st : AppState) (env : BurnEnv)
    (f : List Nat → List Nat) (sz : Nat)
    (h0 : st.is_burning = false) (hex : env.image_exists = true)
    (hmeta : env.metadata = Except.ok sz) :
    burn_image cfg st env f =
      burnEraseStage cfg env f sz
        { st with is_burning := true, cancel_flag := false, progress := 0,
                  total_bytes := sz, ops := (("Preparing..."), 0) :: st.ops } := by
  simp [burn_image, label, h0, hex, hmeta]

theorem burnEraseStage_fail (cfg : BurnConfig) (env : BurnEnv)
    (f : List Nat → List Nat) (sz : Nat) (st : AppState) (e : String)
    (hse : cfg.secure_erase_before = true)
    (herr : secure_erase_drive (parseEraseMethod cfg.erase_method) env.erase =
      Except.error e) :
    burnEraseStage cfg env f sz st =
      (Except.error e, label ("Secure erasing drive...") 0 st) := by
  simp [burnEraseStage, hse, herr]

theorem burnEraseStage_ok (cfg : BurnConfig) (env : BurnEnv)
    (f : List Nat → List Nat) (sz : Nat) (st : AppState)
    (hse : cfg.secure_erase_before = true)
    (hok : secure_erase_drive (parseEraseMethod cfg.erase_method) env.erase =
      Except.ok ()) :
    burnEraseStage cfg env f sz st =
      burnCheckpoint1 cfg env f sz 1 (label ("Secure erasing drive...") 0 st) := by
  simp [burnEraseStage, hse, hok]

theorem burnEraseStage_skip (cfg : BurnConfig) (env : BurnEnv)
    (f : List Nat → List Nat) (sz : Nat) (st : AppState)
    (hse : cfg.secure_erase_before = false) :
    burnEraseStage cfg env f sz st = burnCheckpoint1 cfg env f sz 0 st := by
  simp [burnEraseStage, hse]

theorem burnCheckpoint1_cancel (cfg : BurnConfig) (env : BurnEnv)
    (f : List Nat → List Nat) (sz t : Nat) (st : AppState)
    (hc : cancelSet env.cancelAt t = true) :
    burnCheckpoint1 cfg env f sz t st =
      (Except.error ("Operation cancelled"), { st with is_burning := false }) := by
  simp [burnCheckpoint1, hc]

theorem burnCheckpoint1_pass (cfg : BurnConfig) (env : BurnEnv)
    (f : List Nat → List Nat) (sz t : Nat) (st : AppState)
    (hc : cancelSet env.cancelAt t = false) :
    burnCheckpoint1 cfg env f sz t st = burnWriteStage cfg env f sz (t + 1) st := by
  simp [burnCheckpoint1, hc]

theorem burnWriteStage_fail (cfg : BurnConfig) (env : BurnEnv)
    (f : List Nat → List Nat) (sz t : Nat) (st : AppState) (e : String)
    (hw : (write_image_to_drive env.write env.cancelAt t).1 = Except.error e) :
    burnWriteStage cfg env f sz t st =
      (Except.error e,
       { label ("Writing image to drive...") t st with
           progress := (write_image_to_drive env.write env.cancelAt t).2.1 }) := by
  rcases hW : write_image_to_drive env.write env.cancelAt t with ⟨r, p, t2⟩
  rw [hW] at hw
  simp only at hw
  subst hw
  simp [burnWriteStage, hW]

theorem burnWriteStage_ok (cfg : BurnConfig) (env : BurnEnv)
    (f : List Nat → List Nat) (sz t bw : Nat) (st : AppState)
    (hw : (write_image_to_drive env.write env.cancelAt t).1 = Except.ok bw) :
    burnWriteStage cfg env f sz t st =
      burnCheckpoint2 cfg env f sz
        (write_image_to_drive env.write env.cancelAt t).2.2 bw
        { label ("Writing image to drive...") t st with
            progress := (write_image_to_drive env.write env.cancelAt t).2.1 } := by
  rcases hW : write_image_to_drive env.write env.cancelAt t with ⟨r, p, t2⟩
  rw [hW] at hw
  simp only at hw
  subst hw
  simp [burnWriteStage, hW]

theorem burnCheckpoint2_cancel (cfg : BurnConfig) (env : BurnEnv)
    (f : List Nat → List Nat) (sz t bw : Nat) (st : AppState)
    (hc : cancelSet env.cancelAt t = true) :
    burnCheckpoint2 cfg env f sz t bw st =
      (Except.error ("Operation cancelled"), { st with is_burning := false }) := by
  simp [burnCheckpoint2, hc]

theorem burnCheckpoint2_pass (cfg : BurnConfig) (env : BurnEnv)
    (f : List Nat → List Nat) (sz t bw : Nat) (st : AppState)
    (hc : cancelSet env.cancelAt t = false) :
    burnCheckpoint2 cfg env f sz t bw st =
      burnEncStage cfg env f sz (t + 1) bw st := by
  simp [burnCheckpoint2, hc]

theorem burnEncStage_none (cfg : BurnConfig) (env : BurnEnv)
    (f : List Nat → List Nat) (sz t bw : Nat) (st : AppState)
    (h : cfg.encryption = none) :
    burnEncStage cfg env f sz t bw st = burnBootStage cfg env f sz t bw st := by
  simp [burnEncStage, h]

theorem burnEncStage_disabled (cfg : BurnConfig) (env : BurnEnv)
    (f : List Nat → List Nat) (sz t bw : Nat) (st : AppState)
    (es : EncryptionSettings) (h : cfg.encryption = some es)
    (hd : es.enabled = false) :
    burnEncStage cfg env f sz t bw st = burnBootStage cfg env f sz t bw st := by
  simp [burnEncStage, h, hd]

theorem burnEncStage_fail (cfg : BurnConfig) (env : BurnEnv)
    (f : List Nat → List Nat) (sz t bw : Nat) (st : AppState)
    (es : EncryptionSettings) (e : String) (h : cfg.encryption = some es)
    (he : es.enabled = true)
    (herr : setup_encryption es env.enc = Except.error e) :
    burnEncStage cfg env f sz t bw st =
      (Except.error e, label ("Setting up encryption...") t st) := by
  simp [burnEncStage, h, he, herr]

theorem burnEncStage_ok (cfg : BurnConfig) (env : BurnEnv)
    (f : List Nat → List Nat) (sz t bw : Nat) (st : AppState)
    (es : EncryptionSettings) (h : cfg.encryption = some es)
    (he : es.enabled = true)
    (hok : setup_encryption es env.enc = Except.ok ()) :
    burnEncStage cfg env f sz t bw st =
      burnBootStage cfg env f sz (t + 1) bw
        (label ("Setting up encryption...") t st) := by
  simp [burnEncStage, h, he, hok]

theorem configure_bootloader_eq (b : BootloaderConfig) :
    configure_bootloader b = Except.ok () := by
  simp [configure_bootloader]

theorem burnBootStage_eq (cfg : BurnConfig) (env : BurnEnv)
    (f : List Nat → List Nat) (sz t bw : Nat) (st : AppState) :
    burnBootStage cfg env f sz t bw st =
      burnVerifyStage cfg env f sz (t + 1) bw
        (label ("Configuring bootloader...") t st) := by
  simp [burnBootStage, configure_bootloader_eq]

theorem burnVerifyStage_skip (cfg : BurnConfig) (env : BurnEnv)
    (f : List Nat → List Nat) (sz t bw : Nat) (st : AppState)
    (hv : cfg.verify_after_write = false) :
    burnVerifyStage cfg env f sz t bw st = burnFinish env t bw none st := by
  simp [burnVerifyStage, hv]

theorem burnVerifyStage_fail (cfg : BurnConfig) (env : BurnEnv)
    (f : List Nat → List Nat) (sz t bw : Nat) (st : AppState) (e : String)
    (hv : cfg.verify_after_write = true)
    (hr : (verify_written_image env.verify f sz).1 = Except.error e) :
    burnVerifyStage cfg env f sz t bw st =
      (Except.error e,
       applyProgress (verify_written_image env.verify f sz).2
         (label ("Verifying write...") t st)) := by
  rcases hV : verify_written_image env.verify f sz with ⟨r, p⟩
  rw [hV] at hr
  simp only at hr
  subst hr
  simp [burnVerifyStage, hv, hV]

theorem burnVerifyStage_ok (cfg : BurnConfig) (env : BurnEnv)
    (f : List Nat → List Nat) (sz t bw : Nat) (st : AppState)
    (hres : HashResult)
    (hv : cfg.verify_after_write = true)
    (hr : (verify_written_image env.verify f sz).1 = Except.ok hres) :
    burnVerifyStage cfg env f sz t bw st =
      burnFinish env (t + 1) bw (some hres)
        (applyProgress (verify_written_image env.verify f sz).2
          (label ("Verifying write...") t st)) := by
  rcases hV : verify_written_image env.verify f sz with ⟨r, p⟩
  rw [hV] at hr
  simp only at hr
  subst hr
  simp [burnVerifyStage, hv, hV]

-- ==========================================================================
-- Claim theorems: C2
-- ==========================================================================

/-- C2: a burn_image call made while a pipeline is already in progress
returns the AlreadyRunning error ("A burn operation is already in
progress") and returns the shared state exactly as it was: the progress
counter, the total-bytes counter, the stage-label history, the
cancellation flag and the in-progress flag itself are all unchanged. -/
theorem c2_already_running_mutates_nothing
    (cfg : BurnConfig) (st : AppState) (env : BurnEnv)
    (f : List Nat → List Nat) (h : st.is_burning = true) :
    burn_image cfg st env f =
      (Except.error ("A burn operation is already in progress"), st) := by
  simp [burn_image, h]

def sampleBoot : BootloaderConfig := ⟨("uefi"), false, false, 0⟩

def sampleCfg : BurnConfig :=
  ⟨("img.iso"), ("/dev/sdx"), false, false, ("zeros"), none, sampleBoot⟩

def sampleEnv : BurnEnv :=
  ⟨true, .ok 3, none, ⟨.ok 100, none, .ok (), none⟩, ⟨none, none, [], none⟩,
   ⟨.ok ⟨true, ("")⟩, .ok (), none⟩, ⟨none, none, [], []⟩, 0⟩

theorem c2_already_running_mutates_nothing_witness :
    ({ AppState.init with is_burning := true } : AppState).is_burning = true ∧
      burn_image sampleCfg { AppState.init with is_burning := true }
          sampleEnv (fun l => l) =
        (Except.error ("A burn operation is already in progress"),
         { AppState.init with is_burning := true }) := by
  refine ⟨rfl, ?_⟩
  exact c2_already_running_mutates_nothing sampleCfg
    { AppState.init with is_burning := true } sampleEnv (fun l => l) rfl

theorem applyProgress_is_burning (o : Option Nat) (st : AppState) :
    (applyProgress o st).is_burning = st.is_burning := by
  cases o <;> simp [applyProgress]

theorem burn_image_to_write (cfg : BurnConfig) (st : AppState) (env : BurnEnv)
    (f : List Nat → List Nat) (sz : Nat)
    (h0 : st.is_burning = false) (hex : env.image_exists = true)
    (hmeta : env.metadata = Except.ok sz)
    (hEr : cfg.secure_erase_before = true →
      secure_erase_drive (parseEraseMethod cfg.erase_method) env.erase =
        Except.ok ())
    (hc1 : cancelSet env.cancelAt
      (if cfg.secure_erase_before then 1 else 0) = false) :
    burn_image cfg st env f =
      burnWriteStage cfg env f sz (if cfg.secure_erase_before then 2 else 1)
        (if cfg.secure_erase_before then
          label ("Secure erasing drive...") 0
            { st with is_burning := true, cancel_flag := false, progress := 0,
                      total_bytes := sz, ops := (("Preparing..."), 0) :: st.ops }
         else
          { st with is_burning := true, cancel_flag := false, progress := 0,
                    total_bytes := sz, ops := (("Preparing..."), 0) :: st.ops }) := by
  rw [burn_image_run cfg st env f sz h0 hex hmeta]
  cases hse : cfg.secure_erase_before with
  | true =>
    rw [hse] at hc1
    simp only [if_true] at hc1 ⊢
    rw [burnEraseStage_ok cfg env f sz _ hse (hEr hse)]
    exact burnCheckpoint1_pass cfg env f sz 1 _ hc1
  | false =>
    rw [hse] at hc1
    simp only [Bool.false_eq_true, if_false] at hc1 ⊢
    rw [burnEraseStage_skip cfg env f sz _ hse]
    exact burnCheckpoint1_pass cfg env f sz 0 _ hc1

-- ==========================================================================
-- Claim theorems: C3
-- ==========================================================================

/-- C3: if a stage of burn_image fails after the in-progress flag has
been set — the secure erase, the image write (including a cancellation
detected inside write_image_to_drive, which surfaces as the same
propagated "Operation cancelled" error), the encryption setup, or the
verification — the error is propagated to the caller with the
in-progress flag still set, so every subsequent burn_image or
secure_erase call on the resulting state is rejected with the
already-in-progress error.  The bootloader stage cannot fail in the
source (configure_bootloader returns Ok for every mode), so its case is
vacuous. -/
theorem c3_stage_failure_leaves_flag_set
    (st : AppState) (cfg : BurnConfig) (env : BurnEnv)
    (f : List Nat → List Nat) (sz bw : Nat) (e : String)
    (es : EncryptionSettings)
    (h0 : st.is_burning = false)
    (hex : env.image_exists = true)
    (hmeta : env.metadata = Except.ok sz) :
    (cfg.secure_erase_before = true →
      secure_erase_drive (parseEraseMethod cfg.erase_method) env.erase =
        Except.error e →
      StuckBusy (burn_image cfg st env f) e) ∧
    ((cfg.secure_erase_before = true →
        secure_erase_drive (parseEraseMethod cfg.erase_method) env.erase =
          Except.ok ()) →
      cancelSet env.cancelAt (if cfg.secure_erase_before then 1 else 0) = false →
      (write_image_to_drive env.write env.cancelAt
          (if cfg.secure_erase_before then 2 else 1)).1 = Except.error e →
      StuckBusy (burn_image cfg st env f) e) ∧
    ((cfg.secure_erase_before = true →
        secure_erase_drive (parseEraseMethod cfg.erase_method) env.erase =
          Except.ok ()) →
      cancelSet env.cancelAt (if cfg.secure_erase_before then 1 else 0) = false →
      (write_image_to_drive env.write env.cancelAt
          (if cfg.secure_erase_before then 2 else 1)).1 = Except.ok bw →
      cancelSet env.cancelAt
        (write_image_to_drive env.write env.cancelAt
          (if cfg.secure_erase_before then 2 else 1)).2.2 = false →
      cfg.encryption = some es → es.enabled = true →
      setup_encryption es env.enc = Except.error e →
      StuckBusy (burn_image cfg st env f) e) ∧
    ((cfg.secure_erase_before = true →
        secure_erase_drive (parseEraseMethod cfg.erase_method) env.erase =
          Except.ok ()) →
      cancelSet env.cancelAt (if cfg.secure_erase_before then 1 else 0) = false →
      (write_image_to_drive env.write env.cancelAt
          (if cfg.secure_erase_before then 2 else 1)).1 = Except.ok bw →
      cancelSet env.cancelAt
        (write_image_to_drive env.write env.cancelAt
          (if cfg.secure_erase_before then 2 else 1)).2.2 = false →
      (∀ es2, cfg.encryption = some es2 → es2.enabled = true →
        setup_encryption es2 env.enc = Except.ok ()) →
      cfg.verify_after_write = true →
      (verify_written_image env.verify f sz).1 = Except.error e →
      StuckBusy (burn_image cfg st env f) e) := by
  refine ⟨?_, ?_, ?_, ?_⟩
  · intro hse herr
    rw [burn_image_run cfg st env f sz h0 hex hmeta,
        burnEraseStage_fail cfg env f sz _ e hse herr]
    exact stuckBusy_of _ e rfl (by simp [label])
  · intro hEr hc1 hW
    rw [burn_image_to_write cfg st env f sz h0 hex hmeta hEr hc1,
        burnWriteStage_fail cfg env f sz _ _ e hW]
    exact stuckBusy_of _ e rfl
      (by cases hse : cfg.secure_erase_before <;> simp [hse, label])
  · intro hEr hc1 hW hc2 hce hen herr
    rw [burn_image_to_write cfg st env f sz h0 hex hmeta hEr hc1,
        burnWriteStage_ok cfg env f sz _ bw _ hW,
        burnCheckpoint2_pass cfg env f sz _ bw _ hc2,
        burnEncStage_fail cfg env f sz _ bw _ es e hce hen herr]
    exact stuckBusy_of _ e rfl
      (by cases hse : cfg.secure_erase_before <;> simp [hse, label])
  · intro hEr hc1 hW hc2 hEnc hv hVr
    rw [burn_image_to_write cfg st env f sz h0 hex hmeta hEr hc1,
        burnWriteStage_ok cfg env f sz _ bw _ hW,
        burnCheckpoint2_pass cfg env f sz _ bw _ hc2]
    cases hce : cfg.encryption with
    | none =>
      rw [burnEncStage_none cfg env f sz _ bw _ hce, burnBootStage_eq,
          burnVerifyStage_fail cfg env f sz _ bw _ e hv hVr]
      refine stuckBusy_of _ e rfl ?_
      rw [applyProgress_is_burning]
      cases hse : cfg.secure_erase_before <;> simp [hse, label]
    | some es2 =>
      cases hen : es2.enabled with
      | false =>
        rw [burnEncStage_disabled cfg env f sz _ bw _ es2 hce hen,
            burnBootStage_eq,
            burnVerifyStage_fail cfg env f sz _ bw _ e hv hVr]
        refine stuckBusy_of _ e rfl ?_
        rw [applyProgress_is_burning]
        cases hse : cfg.secure_erase_before <;> simp [hse, label]
      | true =>
        rw [burnEncStage_ok cfg env f sz _ bw _ es2 hce hen (hEnc es2 hce hen),
            burnBootStage_eq,
            burnVerifyStage_fail cfg env f sz _ bw _ e hv hVr]
        refine stuckBusy_of _ e rfl ?_
        rw [applyProgress_is_burning]
        cases hse : cfg.secure_erase_before <;> simp [hse, label]

def c3cfg : BurnConfig :=
  ⟨("a.iso"), ("/dev/sdz"), false, false, ("zeros"), none, sampleBoot⟩

def c3env : BurnEnv :=
  ⟨true, .ok 3, some 1, ⟨.ok 10, none, .ok (), none⟩,
   ⟨none, none, [WriteEvent.chunk [5]], none⟩,
   ⟨.ok ⟨true, ("")⟩, .ok (), none⟩, ⟨none, none, [], []⟩, 0⟩

def sampleEs : EncryptionSettings :=
  ⟨true, ("luks"), ("pw"), ("aes-xts-plain64"), 256, ("sha256"), 100000, false⟩

theorem c3_stage_failure_leaves_flag_set_witness :
    AppState.init.is_burning = false ∧
      c3env.image_exists = true ∧
      c3env.metadata = Except.ok 3 ∧
      (write_image_to_drive c3env.write c3env.cancelAt 1).1 =
        Except.error ("Operation cancelled") ∧
      (burn_image c3cfg AppState.init c3env (fun l => l)).1 =
        Except.error ("Operation cancelled") ∧
      (burn_image c3cfg AppState.init c3env (fun l => l)).2.is_burning = true ∧
      (burn_image c3cfg
          (burn_image c3cfg AppState.init c3env (fun l => l)).2 c3env
          (fun l => l)).1 =
        Except.error ("A burn operation is already in progress") ∧
      (secure_erase ("zeros")
          (burn_image c3cfg AppState.init c3env (fun l => l)).2
          c3env.erase).1 =
        Except.error ("Another operation is in progress") := by
  have h := (c3_stage_failure_leaves_flag_set AppState.init c3cfg c3env
      (fun l => l) 3 0 ("Operation cancelled") sampleEs rfl rfl rfl).2.1
    (by decide) (by decide) (by decide)
  exact ⟨rfl, rfl, rfl, by decide, h.1, h.2.1,
    h.2.2.1 c3cfg c3env (fun l => l), h.2.2.2 ("zeros") c3env.erase⟩

-- ==========================================================================
-- Claim theorems: C1
-- ==========================================================================

def c1cfg : BurnConfig :=
  ⟨("a.iso"), ("/dev/sdz"), true, false, ("zeros"), none, sampleBoot⟩

def c1env : BurnEnv :=
  ⟨true, .ok 0, some 3, ⟨.ok 10, none, .ok (), none⟩, ⟨none, none, [], none⟩,
   ⟨.ok ⟨true, ("")⟩, .ok (), none⟩, ⟨none, none, [], []⟩, 0⟩

/-- C1 counterexample: in this run (no erase, no encryption, verify
requested) the external cancel request lands at tick 3, which is
exactly when the bootloader-configuration stage transition happens (the
stage-label trace records ("Configuring bootloader...", 3)), so the
cancellation flag is set at a stage-transition point of the pipeline;
yet the run does not return OperationCancelled and still attempts the
following verification stage (("Verifying write...", 4) is in the
trace) — refuting the claim that the flag is checked before every stage
transition and that a set flag at such a point stops the run. -/
theorem c1_counterexample_no_check_before_bootloader :
    cancelSet c1env.cancelAt 3 = true ∧
      (("Configuring bootloader..."), 3) ∈
        (burn_image c1cfg AppState.init c1env (fun l => l)).2.ops ∧
      (("Verifying write..."), 4) ∈
        (burn_image c1cfg AppState.init c1env (fun l => l)).2.ops ∧
      (burn_image c1cfg AppState.init c1env (fun l => l)).1 ≠
        Except.error ("Operation cancelled") := by
  decide

/-- C1 amended: the cancellation flag is checked at exactly two
inter-stage points — after the erase stage (before writing) and after
the write stage (before encryption setup) — besides the per-chunk check
inside the write loop; if the flag is set at either inter-stage
checkpoint, the run returns "Operation cancelled", clears the
in-progress flag, and attempts no further stage (first conjunct: no
write/encryption/bootloader/verify stage; second conjunct: no
encryption/bootloader/verify stage).  No check occurs before the erase,
bootloader-configuration or verification stages. -/
theorem c1_amended_two_cancellation_checkpoints
    (st : AppState) (cfg : BurnConfig) (env : BurnEnv)
    (f : List Nat → List Nat) (sz bw : Nat)
    (h0 : st.is_burning = false)
    (hex : env.image_exists = true)
    (hmeta : env.metadata = Except.ok sz)
    (hops : st.ops = []) :
    ((cfg.secure_erase_before = true →
        secure_erase_drive (parseEraseMethod cfg.erase_method) env.erase =
          Except.ok ()) →
      cancelSet env.cancelAt (if cfg.secure_erase_before then 1 else 0) = true →
      (burn_image cfg st env f).1 = Except.error ("Operation cancelled") ∧
      (burn_image cfg st env f).2.is_burning = false ∧
      (∀ t2, (("Writing image to drive..."), t2) ∉
        (burn_image cfg st env f).2.ops) ∧
      (∀ t2, (("Setting up encryption..."), t2) ∉
        (burn_image cfg st env f).2.ops) ∧
      (∀ t2, (("Configuring bootloader..."), t2) ∉
        (burn_image cfg st env f).2.ops) ∧
      (∀ t2, (("Verifying write..."), t2) ∉
        (burn_image cfg st env f).2.ops)) ∧
    ((cfg.secure_erase_before = true →
        secure_erase_drive (parseEraseMethod cfg.erase_method) env.erase =
          Except.ok ()) →
      cancelSet env.cancelAt (if cfg.secure_erase_before then 1 else 0) = false →
      (write_image_to_drive env.write env.cancelAt
          (if cfg.secure_erase_before then 2 else 1)).1 = Except.ok bw →
      cancelSet env.cancelAt
        (write_image_to_drive env.write env.cancelAt
          (if cfg.secure_erase_before then 2 else 1)).2.2 = true →
      (burn_image cfg st env f).1 = Except.error ("Operation cancelled") ∧
      (burn_image cfg st env f).2.is_burning = false ∧
      (∀ t2, (("Setting up encryption..."), t2) ∉
        (burn_image cfg st env f).2.ops) ∧
      (∀ t2, (("Configuring bootloader..."), t2) ∉
        (burn_image cfg st env f).2.ops) ∧
      (∀ t2, (("Verifying write..."), t2) ∉
        (burn_image cfg st env f).2.ops)) := by
  constructor
  · intro hEr hset
    cases hse : cfg.secure_erase_before with
    | true =>
      rw [hse] at hset
      simp only [if_true] at hset
      rw [burn_image_run cfg st env f sz h0 hex hmeta,
          burnEraseStage_ok cfg env f sz _ hse (hEr hse),
          burnCheckpoint1_cancel cfg env f sz 1 _ hset]
      refine ⟨rfl, by simp [label], ?_, ?_, ?_, ?_⟩ <;>
        exact fun t2 => by simp [label, hops]
    | false =>
      rw [hse] at hset
      simp only [Bool.false_eq_true, if_false] at hset
      rw [burn_image_run cfg st env f sz h0 hex hmeta,
          burnEraseStage_skip cfg env f sz _ hse,
          burnCheckpoint1_cancel cfg env f sz 0 _ hset]
      refine ⟨rfl, by simp [label], ?_, ?_, ?_, ?_⟩ <;>
        exact fun t2 => by simp [label, hops]
  · intro hEr hc1 hW hset2
    rw [burn_image_to_write cfg st env f sz h0 hex hmeta hEr hc1,
        burnWriteStage_ok cfg env f sz _ bw _ hW,
        burnCheckpoint2_cancel cfg env f sz _ bw _ hset2]
    refine ⟨rfl, by simp [label], ?_, ?_, ?_⟩ <;>
      exact fun t2 => by
        cases hse : cfg.secure_erase_before <;> simp [hse, label, hops]

def c1wcfg : BurnConfig :=
  ⟨("b.iso"), ("/dev/sdy"), false, false, ("zeros"), none, sampleBoot⟩

def c1wenv : BurnEnv :=
  ⟨true, .ok 5, some 2, ⟨.ok 10, none, .ok (), none⟩, ⟨none, none, [], none⟩,
   ⟨.ok ⟨true, ("")⟩, .ok (), none⟩, ⟨none, none, [], []⟩, 0⟩

theorem c1_amended_two_cancellation_checkpoints_witness :
    AppState.init.is_burning = false ∧
      c1wenv.image_exists = true ∧ c1wenv.metadata = Except.ok 5 ∧
      AppState.init.ops = [] ∧
      (write_image_to_drive c1wenv.write c1wenv.cancelAt 1).1 = Except.ok 0 ∧
      cancelSet c1wenv.cancelAt
        (write_image_to_drive c1wenv.write c1wenv.cancelAt 1).2.2 = true ∧
      (burn_image c1wcfg AppState.init c1wenv (fun l => l)).1 =
        Except.error ("Operation cancelled") ∧
      (burn_image c1wcfg AppState.init c1wenv (fun l => l)).2.is_burning =
        false ∧
      (("Configuring bootloader..."), 3) ∉
        (burn_image c1wcfg AppState.init c1wenv (fun l => l)).2.ops := by
  have h := (c1_amended_two_cancellation_checkpoints AppState.init c1wcfg
      c1wenv (fun l => l) 5 0 rfl rfl rfl rfl).2
    (by decide) (by decide) (by decide) (by decide)
  exact ⟨rfl, rfl, rfl, rfl, by decide, by decide, h.1, h.2.1, h.2.2.2.1 3⟩

-- ==========================================================================
-- Claim theorems: C5
-- ==========================================================================

theorem verify_written_image_mismatch (venv : VerifyEnv)
    (f : List Nat → List Nat) (sz : Nat) (ib tb : List Nat) (br : Nat)
    (h1 : venv.openImageErr = none) (h2 : venv.openTargetErr = none)
    (hib : hashReads venv.imageReads = Except.ok ib)
    (htb : hashCappedLoop venv.targetReads sz 0 = (Except.ok tb, br))
    (hne : hexEncode (f ib) ≠ hexEncode (f tb)) :
    verify_written_image venv f sz =
      (Except.ok { algorithm := ("sha256"), hash := hexEncode (f tb),
                   verified := false, expected := some (hexEncode (f ib)) },
       some br) := by
  have hbeq : (hexEncode (f ib) == hexEncode (f tb)) = false :=
    beq_eq_false_iff_ne.mpr hne
  simp [verify_written_image, h1, h2, hib, htb, hbeq]

/-- C5: when verification after write is requested and the digest of the
target device (capped to the source length) differs from the digest of
the source image, burn_image still returns a BurnResult with
success = true, carrying a hash_verification record whose verified field
is false; the mismatch is never converted into an error of the run. -/
theorem c5_verify_mismatch_reports_success
    (st : AppState) (cfg : BurnConfig) (env : BurnEnv)
    (f : List Nat → List Nat) (sz bw br : Nat) (ib tb : List Nat)
    (h0 : st.is_burning = false)
    (hex : env.image_exists = true)
    (hmeta : env.metadata = Except.ok sz)
    (hEr : cfg.secure_erase_before = true →
      secure_erase_drive (parseEraseMethod cfg.erase_method) env.erase =
        Except.ok ())
    (hc1 : cancelSet env.cancelAt
      (if cfg.secure_erase_before then 1 else 0) = false)
    (hW : (write_image_to_drive env.write env.cancelAt
      (if cfg.secure_erase_before then 2 else 1)).1 = Except.ok bw)
    (hc2 : cancelSet env.cancelAt
      (write_image_to_drive env.write env.cancelAt
        (if cfg.secure_erase_before then 2 else 1)).2.2 = false)
    (hEnc : ∀ es2, cfg.encryption = some es2 → es2.enabled = true →
      setup_encryption es2 env.enc = Except.ok ())
    (hv : cfg.verify_after_write = true)
    (hvi : env.verify.openImageErr = none)
    (hvt : env.verify.openTargetErr = none)
    (hib : hashReads env.verify.imageReads = Except.ok ib)
    (htb : hashCappedLoop env.verify.targetReads sz 0 = (Except.ok tb, br))
    (hne : hexEncode (f ib) ≠ hexEncode (f tb)) :
    (burn_image cfg st env f).1 =
      Except.ok { success := true,
                  message := ("Image burned successfully"),
                  hash_verification := some { algorithm := ("sha256"),
                                              hash := hexEncode (f tb),
                                              verified := false,
                                              expected :=
                                                some (hexEncode (f ib)) },
                  duration_seconds := env.duration,
                  bytes_written := bw } := by
  have hV := verify_written_image_mismatch env.verify f sz ib tb br
    hvi hvt hib htb hne
  have hV1 : (verify_written_image env.verify f sz).1 =
      Except.ok { algorithm := ("sha256"), hash := hexEncode (f tb),
                  verified := false, expected := some (hexEncode (f ib)) } := by
    rw [hV]
  rw [burn_image_to_write cfg st env f sz h0 hex hmeta hEr hc1,
      burnWriteStage_ok cfg env f sz _ bw _ hW,
      burnCheckpoint2_pass cfg env f sz _ bw _ hc2]
  cases hce : cfg.encryption with
  | none =>
    rw [burnEncStage_none cfg env f sz _ bw _ hce, burnBootStage_eq,
        burnVerifyStage_ok cfg env f sz _ bw _ _ hv hV1]
    rfl
  | some es2 =>
    cases hen : es2.enabled with
    | false =>
      rw [burnEncStage_disabled cfg env f sz _ bw _ es2 hce hen,
          burnBootStage_eq,
          burnVerifyStage_ok cfg env f sz _ bw _ _ hv hV1]
      rfl
    | true =>
      rw [burnEncStage_ok cfg env f sz _ bw _ es2 hce hen (hEnc es2 hce hen),
          burnBootStage_eq,
          burnVerifyStage_ok cfg env f sz _ bw _ _ hv hV1]
      rfl

def c5wcfg : BurnConfig :=
  ⟨("c.iso"), ("/dev/sdw"), true, false, ("zeros"), none, sampleBoot⟩

def c5wenv : BurnEnv :=
  ⟨true, .ok 1, none, ⟨.ok 10, none, .ok (), none⟩,
   ⟨none, none, [WriteEvent.chunk [9]], none⟩,
   ⟨.ok ⟨true, ("")⟩, .ok (), none⟩,
   ⟨none, none, [ReadEvent.chunk [0]], [ReadEvent.chunk [1]]⟩, 0⟩

theorem c5_verify_mismatch_reports_success_witness :
    AppState.init.is_burning = false ∧
      c5wenv.image_exists = true ∧ c5wenv.metadata = Except.ok 1 ∧
      (write_image_to_drive c5wenv.write c5wenv.cancelAt 1).1 =
        Except.ok 1 ∧
      c5wcfg.verify_after_write = true ∧
      hashReads c5wenv.verify.imageReads = Except.ok [0] ∧
      hashCappedLoop c5wenv.verify.targetReads 1 0 =
        (Except.ok [1], 1) ∧
      hexEncode ((fun l => l) [0]) ≠ hexEncode ((fun l => l) [1]) ∧
      (burn_image c5wcfg AppState.init c5wenv (fun l => l)).1 =
        Except.ok { success := true,
                    message := ("Image burned successfully"),
                    hash_verification :=
                      some { algorithm := ("sha256"),
                             hash := hexEncode ((fun l => l) [1]),
                             verified := false,
                             expected :=
                               some (hexEncode ((fun l => l) [0])) },
                    duration_seconds := c5wenv.duration,
                    bytes_written := 1 } := by
  have h := c5_verify_mismatch_reports_success AppState.init c5wcfg c5wenv
    (fun l => l) 1 1 1 [0] [1] rfl rfl rfl
    (by decide) (by decide) (by decide) (by decide)
    (by intro es2 hh; simp [c5wcfg] at hh)
    rfl rfl rfl (by decide) (by decide) (by decide)
  exact ⟨rfl, rfl, rfl, by decide, rfl, by decide, by decide, by decide, h⟩
